import Mathlib

/-!
Verification development for the Lampung Digital Resilience Monitor.

We give a shallow embedding of the parts of the repository that the
specification talks about:

* `app.compute_kecamatan_status` — the per-region status classifier;
* `modules/disaster_correlation.py` — earthquake and weather risk
  assessment and the combined risk map;
* `modules/social_signal.get_social_score` and
  `modules/infra_probing.get_infra_score` — the derived score functions;
* `modules/data_store.py` — the background refresh store, embedded as an
  explicit state machine whose external world (the three fallible
  producer pipelines and the wall clock) is passed in as input.

Python dictionaries keyed by region name are embedded as functions
`String → Option V`; Python float arithmetic is embedded over `ℚ`
(the numeric literals 0.4, 0.2, 0.5, 0.75 are exact decimals, and no
claim depends on binary floating point rounding).
-/

namespace Lampung

/-- A Python dict keyed by region (kecamatan) name, embedded as a partial map. -/
def MapS (V : Type) : Type := String → Option V

/-- The empty dict. -/
def memp {V : Type} : MapS V := fun _ => none

/-- Dict update `m[k] = v`. -/
def mupd {V : Type} (m : MapS V) (k : String) (v : V) : MapS V :=
  fun k2 => if k2 = k then some v else m k2

/-- Python `round` rounds halves to the nearest even integer; away from
exact halves it agrees with rounding to the nearest integer. -/
def roundHalfEven (q : ℚ) : ℤ :=
  if q - ⌊q⌋ = (1 : ℚ) / 2 then (if (2 : ℤ) ∣ ⌊q⌋ then ⌊q⌋ else ⌊q⌋ + 1)
  else round q

/-- Python `round(x, 1)`: round to one decimal place. -/
def round1 (q : ℚ) : ℚ := (roundHalfEven (q * 10) : ℚ) / 10

/-- The region names of `KECAMATAN_DB` in `utils/mock_data.py`, in source
order.  The classifier and the earthquake assessment iterate over these
names; the stored coordinates enter only through the haversine distance,
which is modelled below as an oracle parameter. -/
def KECAMATAN_DB : List String :=
  ["Tanjung Karang Pusat", "Tanjung Karang Barat", "Tanjung Karang Timur",
   "Teluk Betung Utara", "Teluk Betung Barat", "Teluk Betung Selatan",
   "Kedaton", "Sukarame", "Way Halim", "Rajabasa", "Kemiling", "Langkapura",
   "Enggal", "Kedamaian", "Labuhan Ratu", "Sukabumi", "Tanjung Senang",
   "Way Kandis", "Metro Pusat", "Metro Timur", "Metro Barat", "Kalianda",
   "Natar", "Jati Agung", "Tanjung Bintang", "Sidomulyo", "Bakauheni",
   "Pringsewu", "Gunung Sugih", "Terbanggi Besar", "Kotabumi", "Sukadana",
   "Gedong Tataan", "Kota Agung", "Liwa", "Blambangan Umpu", "Menggala",
   "Tulang Bawang Tengah"]

/-! ## modules/disaster_correlation.py -/

/-- An earthquake record as consumed by `assess_earthquake_risk`
(the fields read from the BMKG record). -/
structure Earthquake where
  magnitude : ℚ
  latitude : ℚ
  longitude : ℚ
deriving DecidableEq

/-- A weather warning record as consumed by `assess_weather_risk`. -/
structure WeatherWarning where
  level : String
  wtype : String
  affected_kecamatan : List String
deriving DecidableEq

/-- One entry of the `affected` dict built by `assess_earthquake_risk`. -/
structure EqRiskEntry where
  risk : String
  cause : String
  distance_km : ℚ
  earthquake_detail : Earthquake
deriving DecidableEq

/-- One entry of the `affected` dict built by `assess_weather_risk`. -/
structure WeatherRiskEntry where
  risk : String
  cause : String
  warning_detail : WeatherWarning
deriving DecidableEq

/-- One entry of the combined risk map built by `get_combined_disaster_risk`. -/
structure RiskEntry where
  risk : String
  causes : List String
  eq_detail : Option EqRiskEntry
  weather_detail : Option WeatherRiskEntry
deriving DecidableEq

/-- `_risk_level`: risk string to numeric level, default 0. -/
def riskLevel (r : String) : ℕ :=
  if r = "HIGH" then 3 else if r = "MEDIUM" then 2 else if r = "LOW" then 1 else 0

/-- The radius / risk pair chosen per earthquake magnitude in
`assess_earthquake_risk`. -/
def eqRadiusRisk (mag : ℚ) : ℚ × String :=
  if 5 ≤ mag then (100, "HIGH")
  else if 4 ≤ mag then (50, "MEDIUM")
  else (25, "LOW")

/-- The inner loop of `assess_earthquake_risk` for one earthquake: walk
`KECAMATAN_DB` and insert or upgrade the affected entry for every region
within the radius.  `dist` is the haversine distance oracle. -/
def assessEqOne (dist : Earthquake → String → ℚ) (m : MapS EqRiskEntry)
    (eq : Earthquake) : MapS EqRiskEntry :=
  KECAMATAN_DB.foldl (fun m kec =>
    let rr := eqRadiusRisk eq.magnitude
    let d := dist eq kec
    if d ≤ rr.1 then
      let entry : EqRiskEntry :=
        { risk := rr.2, cause := "Gempa " ++ toString eq.magnitude ++ " SR",
          distance_km := round1 d, earthquake_detail := eq }
      match m kec with
      | none => mupd m kec entry
      | some old => if riskLevel old.risk < riskLevel rr.2 then mupd m kec entry else m
    else m) m

/-- `assess_earthquake_risk`: fold the per-earthquake step over the list.
The real haversine distance is a trigonometric real-valued function; it is
modelled as the oracle parameter `dist`, since no claim depends on its value. -/
def assess_earthquake_risk (dist : Earthquake → String → ℚ)
    (earthquakes : List Earthquake) : MapS EqRiskEntry :=
  earthquakes.foldl (assessEqOne dist) memp

/-- The risk string chosen per warning level in `assess_weather_risk`
(`risk_map.get(level, "LOW")`). -/
def weatherRiskOf (level : String) : String :=
  if level = "ALERT" then "HIGH"
  else if level = "WARNING" then "MEDIUM"
  else if level = "ADVISORY" then "LOW"
  else "LOW"

/-- The inner loop of `assess_weather_risk` for one warning. -/
def assessWeatherOne (m : MapS WeatherRiskEntry) (w : WeatherWarning) :
    MapS WeatherRiskEntry :=
  w.affected_kecamatan.foldl (fun m kec =>
    let risk := weatherRiskOf w.level
    let entry : WeatherRiskEntry := { risk := risk, cause := w.wtype, warning_detail := w }
    match m kec with
    | none => mupd m kec entry
    | some old => if riskLevel old.risk < riskLevel risk then mupd m kec entry else m) m

/-- `assess_weather_risk`. -/
def assess_weather_risk (warnings : List WeatherWarning) : MapS WeatherRiskEntry :=
  warnings.foldl assessWeatherOne memp

/-- The loop body of `get_combined_disaster_risk` for one region that is a
key of `eq_risk` or of `weather_risk`: collect causes and take the maximal
risk, starting from `"LOW"`. -/
def combineEntry (eo : Option EqRiskEntry) (wo : Option WeatherRiskEntry) : RiskEntry :=
  let st1 : List String × String :=
    match eo with
    | none => ([], "LOW")
    | some e => ([e.cause], if riskLevel "LOW" < riskLevel e.risk then e.risk else "LOW")
  let st2 : List String × String :=
    match wo with
    | none => st1
    | some w => (st1.1 ++ [w.cause],
        if riskLevel st1.2 < riskLevel w.risk then w.risk else st1.2)
  { risk := st2.2, causes := st2.1, eq_detail := eo, weather_detail := wo }

/-- The combined risk map: a region is a key exactly when it is a key of
`eq_risk` or of `weather_risk` (`all_kecamatan` in the source). -/
def combineRisk (em : MapS EqRiskEntry) (wm : MapS WeatherRiskEntry) : MapS RiskEntry :=
  fun kec =>
    match em kec, wm kec with
    | none, none => none
    | eo, wo => some (combineEntry eo wo)

/-- The value returned by `get_combined_disaster_risk`: the risk map plus
the raw metadata. -/
structure DisasterData where
  risk_map : MapS RiskEntry
  earthquakes : List Earthquake
  weather_warnings : List WeatherWarning

/-- `get_combined_disaster_risk`, with the BMKG fetch results
(`fetch_disaster_data`) passed in as inputs. -/
def get_combined_disaster_risk (dist : Earthquake → String → ℚ)
    (earthquakes : List Earthquake) (warnings : List WeatherWarning) : DisasterData :=
  { risk_map := combineRisk (assess_earthquake_risk dist earthquakes)
      (assess_weather_risk warnings),
    earthquakes := earthquakes,
    weather_warnings := warnings }

/-! ## modules/social_signal.py — derived social score -/

/-- A processed social signal (the NLP pipeline output fields that the
downstream code reads). -/
structure Signal where
  is_digital_issue : Bool
  primary_location : String
  primary_provider : String
  sentiment_score : ℚ
  severity : String
  timestamp : String
  original_text : String
  providers_detected : List String

/-- One per-region aggregate as read by `get_social_score` (the
display-only fields `top_providers` and `latest_reports` are not read by
the scoring path and are omitted). -/
structure SocialAgg where
  complaint_count : ℕ
  avg_sentiment : ℚ
  max_severity : String
deriving DecidableEq

/-- `get_social_score`: per-region score from complaint count, average
sentiment and maximal severity.  The output dict has exactly the keys of
the input dict. -/
def get_social_score (agg : MapS SocialAgg) : MapS ℚ :=
  fun kec => (agg kec).map (fun d =>
    let count_score : ℚ := max 0 (100 - ((d.complaint_count : ℚ) * 15))
    let sentiment_penalty : ℚ := |d.avg_sentiment| * 30
    let mult : ℚ :=
      if d.max_severity = "critical" then 0.5
      else if d.max_severity = "warning" then 0.75
      else if d.max_severity = "normal" then 1 else 1
    round1 (max 0 ((count_score - sentiment_penalty) * mult)))

/-! ## modules/infra_probing.py — derived infrastructure score -/

/-- One probe result as produced by `probe_anchors`. -/
structure ProbeResult where
  host : String
  nama_lokasi : String
  kecamatan : String
  kabupaten : String
  latency_ms : ℚ
  packet_loss_pct : ℚ
  status : String
  timestamp : String

/-- One per-region probe aggregate as read by `get_infra_score`. -/
structure ProbeAgg where
  overall_status : String
  avg_latency : ℚ
  avg_packet_loss : ℚ
  anchor_count : ℕ
  rto_count : ℕ
deriving DecidableEq

/-- `get_infra_score`: 0 when all anchors are down, a loss/latency blend
when degraded, 100 otherwise. -/
def get_infra_score (agg : MapS ProbeAgg) : MapS ℚ :=
  fun kec => (agg kec).map (fun d =>
    if d.overall_status = "DOWN" then 0
    else if d.overall_status = "DEGRADED" then
      let loss_score : ℚ := max 0 (100 - d.avg_packet_loss)
      let lat_score : ℚ :=
        if 0 < d.avg_latency then max 0 (100 - d.avg_latency / 10) else 50
      round1 ((loss_score + lat_score) / 2)
    else 100)

/-! ## app.py — compute_kecamatan_status -/

/-- The `data` dict assembled by a fetch cycle (`load_all_data` in
`app.py`, `new_data` in `data_store.py`): seven fields. -/
structure Snapshot where
  social_signals : List Signal
  social_agg : MapS SocialAgg
  social_scores : MapS ℚ
  disaster_data : DisasterData
  probe_results : List ProbeResult
  probe_agg : MapS ProbeAgg
  infra_scores : MapS ℚ

/-- One entry of the `statuses` dict built by `compute_kecamatan_status`. -/
structure RegionStatus where
  status : String
  color : String
  combined_score : ℚ
  social_score : ℚ
  infra_score : ℚ
  disaster_risk : String
  disaster_causes : List String
deriving DecidableEq

/-- The loop body of `compute_kecamatan_status` for one region. -/
def classifyRegion (data : Snapshot) (kec : String) : RegionStatus :=
  let social_score : ℚ := (data.social_scores kec).getD 100
  let infra_score : ℚ := (data.infra_scores kec).getD 100
  let rm := data.disaster_data.risk_map
  let has_disaster : Bool := (rm kec).isSome
  let disaster_risk : String := match rm kec with
    | some e => e.risk
    | none => "NONE"
  let combined : ℚ := (social_score * 0.4) + (infra_score * 0.4) +
    (if disaster_risk = "HIGH" then 0
     else if disaster_risk = "MEDIUM" then 50 else 100) * 0.2
  let causes : List String := match rm kec with
    | some e => e.causes
    | none => []
  if combined < 30 ∨ (social_score < 40 ∧ (has_disaster = true ∨ infra_score < 50)) then
    { status := "CRITICAL", color := "#eb3349", combined_score := round1 combined,
      social_score := social_score, infra_score := infra_score,
      disaster_risk := disaster_risk, disaster_causes := causes }
  else if combined < 60 ∨ social_score < 60 ∨ infra_score < 60 then
    { status := "WARNING", color := "#F2994A", combined_score := round1 combined,
      social_score := social_score, infra_score := infra_score,
      disaster_risk := disaster_risk, disaster_causes := causes }
  else
    { status := "NORMAL", color := "#38ef7d", combined_score := round1 combined,
      social_score := social_score, infra_score := infra_score,
      disaster_risk := disaster_risk, disaster_causes := causes }

/-- `compute_kecamatan_status`: the statuses dict, keyed in `KECAMATAN_DB`
order. -/
def compute_kecamatan_status (data : Snapshot) : List (String × RegionStatus) :=
  KECAMATAN_DB.map (fun kec => (kec, classifyRegion data kec))

/-- The status cascade exactly as the specification words it (claim C1):
`riskOpt` is the risk string of the region entry of the risk map, when
present.  CRITICAL when `combined < 30` or (`social < 40` and (a disaster
risk is present and not NONE, or `infra < 50`)); else WARNING when
`combined < 60` or `social < 60` or `infra < 60`; else NORMAL. -/
def specStatus (social infra : ℚ) (riskOpt : Option String) : String :=
  let risk := riskOpt.getD "NONE"
  let combined : ℚ := 0.4 * social + 0.4 * infra +
    0.2 * (if risk = "HIGH" then 0 else if risk = "MEDIUM" then 50 else 100)
  if combined < 30 ∨ (social < 40 ∧ ((riskOpt ≠ none ∧ risk ≠ "NONE") ∨ infra < 50)) then
    "CRITICAL"
  else if combined < 60 ∨ social < 60 ∨ infra < 60 then "WARNING"
  else "NORMAL"

/-! ## modules/data_store.py — the background refresh store

The store is embedded as an explicit state machine.  The fallible external
world of one fetch cycle — the three producer pipelines (each of which can
raise) and the completion wall-clock time — is a `CycleInput` value;
`doFetch` is `DataStore._do_fetch` as a state transition on that input.
Timestamps are integers (epoch seconds). -/

/-- What the social pipeline of `_do_fetch` computes when it does not
raise: `fetch_social_signals`, `aggregate_by_kecamatan`, `get_social_score`. -/
structure SocialResult where
  social_signals : List Signal
  social_agg : MapS SocialAgg
  social_scores : MapS ℚ

/-- What the infrastructure pipeline of `_do_fetch` computes when it does
not raise: `probe_anchors`, `aggregate_probe_by_kecamatan`, `get_infra_score`. -/
structure InfraResult where
  probe_results : List ProbeResult
  probe_agg : MapS ProbeAgg
  infra_scores : MapS ℚ

/-- The external world of one fetch cycle.  Each producer pipeline either
returns its result or raises an exception carrying a message. -/
structure CycleInput where
  social : Except String SocialResult
  disaster : Except String DisasterData
  infra : Except String InfraResult
  now : ℤ

/-- The fields of `DataStore` guarded by its lock. -/
structure StoreState where
  refresh_interval : ℤ
  data : Option Snapshot
  stop_event : Bool
  is_fetching : Bool
  last_refresh : Option ℤ
  next_refresh : Option ℤ
  fetch_count : ℕ
  last_error : Option String

/-- The field initialisation at the top of `DataStore.__init__`, before the
initial synchronous fetch. -/
def initState (interval : ℤ) : StoreState :=
  { refresh_interval := interval, data := none, stop_event := false,
    is_fetching := false, last_refresh := none, next_refresh := none,
    fetch_count := 0, last_error := none }

/-- The body of the `try` block of `_do_fetch`: run the three producer
pipelines in order (an exception short-circuits the rest) and assemble the
seven-field `new_data` dict. -/
def buildSnapshot (inp : CycleInput) : Except String Snapshot := do
  let s ← inp.social
  let d ← inp.disaster
  let i ← inp.infra
  pure { social_signals := s.social_signals, social_agg := s.social_agg,
         social_scores := s.social_scores, disaster_data := d,
         probe_results := i.probe_results, probe_agg := i.probe_agg,
         infra_scores := i.infra_scores }

/-- The message of the first producer pipeline that raises, if any. -/
def cycleError (inp : CycleInput) : Option String :=
  match inp.social with
  | .error e => some e
  | .ok _ =>
    match inp.disaster with
    | .error e => some e
    | .ok _ =>
      match inp.infra with
      | .error e => some e
      | .ok _ => none

/-- `DataStore._do_fetch`.  On success: atomic swap of the snapshot and
the refresh metadata.  On an exception anywhere in the `try` block: record
`last_error` only.  In both cases the `finally` clause resets
`is_fetching`. -/
def doFetch (s : StoreState) (inp : CycleInput) : StoreState :=
  match buildSnapshot inp with
  | .ok snap =>
    { s with data := some snap,
             last_refresh := some inp.now,
             next_refresh := some (inp.now + s.refresh_interval),
             fetch_count := s.fetch_count + 1,
             last_error := none,
             is_fetching := false }
  | .error e =>
    { s with last_error := some e, is_fetching := false }

/-- `DataStore.__init__` with a fresh singleton: initialise the fields and
run one synchronous fetch cycle before the periodic loop starts. -/
def mkStore (interval : ℤ) (inp : CycleInput) : StoreState :=
  doFetch (initState interval) inp

/-- `DataStore.get_data`: return the cached snapshot; the state is
returned unchanged to make the frame condition explicit (the method only
reads under the lock). -/
def get_data (s : StoreState) : Option Snapshot × StoreState :=
  (s.data, s)

/-- The metadata dict returned by `DataStore.get_status`. -/
structure RefreshStatus where
  last_refresh : Option ℤ
  next_refresh : Option ℤ
  is_fetching : Bool
  fetch_count : ℕ
  refresh_interval : ℤ
  last_error : Option String
deriving DecidableEq

/-- `DataStore.get_status`. -/
def get_status (s : StoreState) : RefreshStatus :=
  { last_refresh := s.last_refresh, next_refresh := s.next_refresh,
    is_fetching := s.is_fetching, fetch_count := s.fetch_count,
    refresh_interval := s.refresh_interval, last_error := s.last_error }

/-- `DataStore.set_refresh_interval`: floor the new interval at 60 seconds. -/
def set_refresh_interval (s : StoreState) (seconds : ℤ) : StoreState :=
  { s with refresh_interval := max 60 seconds }

/-- `DataStore.force_refresh`: when a fetch is already in progress, log and
return without touching anything (the `Bool` records whether a fetch was
started); otherwise run a fetch cycle. -/
def force_refresh (s : StoreState) (inp : CycleInput) : StoreState × Bool :=
  if s.is_fetching then (s, false) else (doFetch s inp, true)

/-- `DataStore.stop`: set the stop event. -/
def stopStore (s : StoreState) : StoreState :=
  { s with stop_event := true }

/-- One interaction with the store after construction: a wake of the
background loop, a client read, a status read, an interval change, a
forced refresh, or a stop signal. -/
inductive StoreOp where
  | fetchCycle (inp : CycleInput)
  | readData
  | readStatus
  | setInterval (seconds : ℤ)
  | forceRefresh (inp : CycleInput)
  | stop

/-- The store step function.  The background loop checks the stop event
before fetching, so a wake after `stop` does nothing. -/
def stepStore (s : StoreState) : StoreOp → StoreState
  | .fetchCycle inp => if s.stop_event then s else doFetch s inp
  | .readData => (get_data s).2
  | .readStatus => s
  | .setInterval n => set_refresh_interval s n
  | .forceRefresh inp => (force_refresh s inp).1
  | .stop => stopStore s

/-- Run a sequence of interactions. -/
def runStore (s : StoreState) (ops : List StoreOp) : StoreState :=
  ops.foldl stepStore s

/-- A state the store can be in during its lifetime: constructed once,
then driven by interactions. -/
def ReachableStore (s : StoreState) : Prop :=
  ∃ interval inp0 ops, s = runStore (mkStore interval inp0) ops

/-! ## Concrete sample values used by witnesses -/

/-- An empty seven-field snapshot. -/
def sampleSnap : Snapshot :=
  { social_signals := [], social_agg := memp, social_scores := memp,
    disaster_data := { risk_map := memp, earthquakes := [], weather_warnings := [] },
    probe_results := [], probe_agg := memp, infra_scores := memp }

/-- A cycle input on which every producer pipeline succeeds. -/
def sampleOkInput : CycleInput :=
  { social := .ok ⟨[], memp, memp⟩,
    disaster := .ok ⟨memp, [], []⟩,
    infra := .ok ⟨[], memp, memp⟩,
    now := 1000 }

/-- A cycle input on which the social pipeline raises. -/
def sampleErrInput : CycleInput :=
  { social := .error "network down",
    disaster := .ok ⟨memp, [], []⟩,
    infra := .ok ⟨[], memp, memp⟩,
    now := 1000 }

/-- A cycle input on which only the infrastructure pipeline raises. -/
def sampleFailInput : CycleInput :=
  { social := .ok ⟨[], memp, memp⟩,
    disaster := .ok ⟨memp, [], []⟩,
    infra := .error "probe failure",
    now := 1000 }

/-- A probe aggregation with a negative average packet loss for one
region (such a value is outside what the probe pipeline produces). -/
def cexProbeAgg : MapS ProbeAgg :=
  mupd memp "Kedaton"
    { overall_status := "DEGRADED", avg_latency := -1, avg_packet_loss := -200,
      anchor_count := 1, rto_count := 0 }

/-- A probe aggregation with one degraded region and in-range averages. -/
def sampleProbeAgg : MapS ProbeAgg :=
  mupd memp "Kedaton"
    { overall_status := "DEGRADED", avg_latency := 500, avg_packet_loss := 30,
      anchor_count := 2, rto_count := 1 }

/-- A social aggregation with one region. -/
def sampleSocialAgg : MapS SocialAgg :=
  mupd memp "Kedaton"
    { complaint_count := 2, avg_sentiment := -1/2, max_severity := "warning" }

/-- One concrete weather warning. -/
def sampleWarning : WeatherWarning :=
  { level := "ALERT", wtype := "Banjir", affected_kecamatan := ["Kedaton"] }

/-! ## Helper lemmas -/

lemma mupd_some {V : Type} {m : MapS V} {k k2 : String} {v e : V}
    (h : mupd m k v k2 = some e) : (k2 = k ∧ e = v) ∨ (k2 ≠ k ∧ m k2 = some e) := by
  unfold mupd at h
  by_cases hk : k2 = k
  · rw [if_pos hk] at h
    exact Or.inl ⟨hk, (Option.some.inj h).symm⟩
  · rw [if_neg hk] at h
    exact Or.inr ⟨hk, h⟩

lemma roundHalfEven_ge_floor (q : ℚ) : ⌊q⌋ ≤ roundHalfEven q := by
  unfold roundHalfEven
  split_ifs with h1 h2
  · exact le_refl _
  · omega
  · rw [round_eq]
    exact Int.floor_le_floor (by linarith)

lemma roundHalfEven_le_ceil (q : ℚ) : roundHalfEven q ≤ ⌈q⌉ := by
  unfold roundHalfEven
  split_ifs with h1 h2
  · exact Int.floor_le_ceil q
  · have hq : (⌊q⌋ : ℚ) < q := by
      have : q - ⌊q⌋ = 1 / 2 := h1
      linarith
    have : ⌊q⌋ < ⌈q⌉ := by
      have hc := Int.le_ceil q
      exact_mod_cast lt_of_lt_of_le hq hc
    omega
  · rw [round_eq]
    rw [Int.floor_le_iff]
    have hc := Int.le_ceil q
    linarith

lemma round1_nonneg {q : ℚ} (h : 0 ≤ q) : 0 ≤ round1 q := by
  unfold round1
  have h1 : (0 : ℤ) ≤ ⌊q * 10⌋ := Int.floor_nonneg.mpr (by linarith)
  have h2 : (0 : ℤ) ≤ roundHalfEven (q * 10) := le_trans h1 (roundHalfEven_ge_floor _)
  have : (0 : ℚ) ≤ (roundHalfEven (q * 10) : ℚ) := by exact_mod_cast h2
  linarith

lemma round1_le_100 {q : ℚ} (h : q ≤ 100) : round1 q ≤ 100 := by
  unfold round1
  have h1 : ⌈q * 10⌉ ≤ (1000 : ℤ) := Int.ceil_le.mpr (by push_cast; linarith)
  have h2 : roundHalfEven (q * 10) ≤ (1000 : ℤ) := le_trans (roundHalfEven_le_ceil _) h1
  have : (roundHalfEven (q * 10) : ℚ) ≤ 1000 := by exact_mod_cast h2
  linarith

lemma lookup_map_fn {β : Type} (f : String → β) :
    ∀ (l : List String) (kec : String), kec ∈ l →
      (l.map (fun k => (k, f k))).lookup kec = some (f kec) := by
  intro l
  induction l with
  | nil => intro kec h; cases h
  | cons a l ih =>
    intro kec h
    by_cases hk : kec = a
    · subst hk
      simp [List.lookup]
    · have hmem : kec ∈ l := by
        rcases List.mem_cons.mp h with h1 | h2
        · exact absurd h1 hk
        · exact h2
      have hne : (kec == a) = false := beq_false_of_ne hk
      simp [List.lookup, hne, ih kec hmem]

/-- A risk string is one of the three levels the assessment functions emit. -/
def ValidRisk (r : String) : Prop := r = "LOW" ∨ r = "MEDIUM" ∨ r = "HIGH"

lemma riskLevel_ge_two {r : String} (h : 2 ≤ riskLevel r) :
    r = "MEDIUM" ∨ r = "HIGH" := by
  unfold riskLevel at h
  split_ifs at h with h1 h2 h3
  · exact Or.inr h1
  · exact Or.inl h2
  · omega
  · omega

lemma validRisk_level_pos {r : String} (h : ValidRisk r) : 1 ≤ riskLevel r := by
  rcases h with h | h | h <;> subst h <;> decide

lemma upgrade_valid {cur cand : String} (hcur : ValidRisk cur) :
    ValidRisk (if riskLevel cur < riskLevel cand then cand else cur) := by
  split_ifs with h
  · have h1 := validRisk_level_pos hcur
    exact Or.inr (riskLevel_ge_two (by omega))
  · exact hcur

lemma combineEntry_risk_valid (eo : Option EqRiskEntry) (wo : Option WeatherRiskEntry) :
    ValidRisk (combineEntry eo wo).risk := by
  have hLOW : ValidRisk "LOW" := Or.inl rfl
  rcases eo with _ | e <;> rcases wo with _ | w <;> simp only [combineEntry]
  · exact hLOW
  · exact upgrade_valid hLOW
  · exact upgrade_valid hLOW
  · exact upgrade_valid (upgrade_valid hLOW)

lemma validRisk_ne_none {r : String} (h : ValidRisk r) : r ≠ "NONE" := by
  rcases h with h | h | h <;> subst h <;> decide

lemma combineEntry_causes_ne_nil (eo : Option EqRiskEntry) (wo : Option WeatherRiskEntry)
    (h : eo.isSome ∨ wo.isSome) : (combineEntry eo wo).causes ≠ [] := by
  unfold combineEntry
  rcases eo with _ | e <;> rcases wo with _ | w <;> simp_all

lemma combineRisk_eq_some {em : MapS EqRiskEntry} {wm : MapS WeatherRiskEntry}
    {kec : String} {e : RiskEntry} (h : combineRisk em wm kec = some e) :
    e = combineEntry (em kec) (wm kec) ∧ ((em kec).isSome ∨ (wm kec).isSome) := by
  unfold combineRisk at h
  rcases h1 : em kec with _ | a <;> rcases h2 : wm kec with _ | b <;>
    rw [h1, h2] at h <;> simp_all

lemma classifyRegion_disaster_risk (data : Snapshot) (kec : String) :
    (classifyRegion data kec).disaster_risk =
      (match data.disaster_data.risk_map kec with
       | some e => e.risk
       | none => "NONE") := by
  simp only [classifyRegion]
  split_ifs <;> rfl

lemma classifyRegion_combined_score (data : Snapshot) (kec : String) :
    (classifyRegion data kec).combined_score =
      round1 (((data.social_scores kec).getD 100) * 0.4 +
              ((data.infra_scores kec).getD 100) * 0.4 +
              (if (match data.disaster_data.risk_map kec with
                   | some e => e.risk
                   | none => "NONE") = "HIGH" then 0
               else if (match data.disaster_data.risk_map kec with
                   | some e => e.risk
                   | none => "NONE") = "MEDIUM" then 50 else 100) * 0.2) := by
  simp only [classifyRegion]
  split_ifs <;> rfl

lemma classifyRegion_status (data : Snapshot) (kec : String) :
    (classifyRegion data kec).status =
      (let social_score : ℚ := (data.social_scores kec).getD 100
       let infra_score : ℚ := (data.infra_scores kec).getD 100
       let rm := data.disaster_data.risk_map
       let disaster_risk : String := match rm kec with
         | some e => e.risk
         | none => "NONE"
       let combined : ℚ := (social_score * 0.4) + (infra_score * 0.4) +
         (if disaster_risk = "HIGH" then 0
          else if disaster_risk = "MEDIUM" then 50 else 100) * 0.2
       if combined < 30 ∨ (social_score < 40 ∧ ((rm kec).isSome = true ∨ infra_score < 50)) then
         "CRITICAL"
       else if combined < 60 ∨ social_score < 60 ∨ infra_score < 60 then "WARNING"
       else "NORMAL") := by
  simp only [classifyRegion]
  split_ifs <;> rfl


lemma buildSnapshot_error_of_cycleError {inp : CycleInput} {e : String}
    (h : cycleError inp = some e) : buildSnapshot inp = Except.error e := by
  unfold cycleError at h
  unfold buildSnapshot
  rcases hs : inp.social with es | a <;> rw [hs] at h
  · simp only [Option.some.inj h.symm] at *
    simp [hs, Except.bind, Bind.bind]
  · rcases hd : inp.disaster with ed | d <;> rw [hd] at h
    · simp only [Option.some.inj h.symm] at *
      simp [hs, hd, Except.bind, Bind.bind]
    · rcases hi : inp.infra with ei | i <;> rw [hi] at h
      · simp only [Option.some.inj h.symm] at *
        simp [hs, hd, hi, Except.bind, Bind.bind]
      · exact absurd h (by simp)

lemma cycleError_isSome_of_producer_error {inp : CycleInput}
    (h : (∃ e, inp.social = Except.error e) ∨ (∃ e, inp.disaster = Except.error e) ∨
         (∃ e, inp.infra = Except.error e)) :
    ∃ e, cycleError inp = some e := by
  unfold cycleError
  rcases hs : inp.social with es | a
  · exact ⟨es, rfl⟩
  · rcases hd : inp.disaster with ed | d
    · exact ⟨ed, rfl⟩
    · rcases hi : inp.infra with ei | i
      · exact ⟨ei, rfl⟩
      · exfalso
        rcases h with ⟨e, he⟩ | ⟨e, he⟩ | ⟨e, he⟩
        · rw [hs] at he; cases he
        · rw [hd] at he; cases he
        · rw [hi] at he; cases he

lemma doFetch_error {s : StoreState} {inp : CycleInput} {e : String}
    (h : buildSnapshot inp = Except.error e) :
    doFetch s inp = { s with last_error := some e, is_fetching := false } := by
  unfold doFetch
  rw [h]

lemma doFetch_ok {s : StoreState} {inp : CycleInput} {snap : Snapshot}
    (h : buildSnapshot inp = Except.ok snap) :
    doFetch s inp =
      { s with data := some snap, last_refresh := some inp.now,
               next_refresh := some (inp.now + s.refresh_interval),
               fetch_count := s.fetch_count + 1, last_error := none,
               is_fetching := false } := by
  unfold doFetch
  rw [h]

lemma doFetch_count (s : StoreState) (inp : CycleInput) :
    (doFetch s inp).fetch_count = s.fetch_count ∨
      (∃ snap, buildSnapshot inp = Except.ok snap ∧
        (doFetch s inp).fetch_count = s.fetch_count + 1) := by
  rcases hb : buildSnapshot inp with e | snap
  · rw [doFetch_error hb]
    exact Or.inl rfl
  · rw [doFetch_ok hb]
    exact Or.inr ⟨snap, rfl, rfl⟩

lemma stepStore_count (s : StoreState) (op : StoreOp) :
    (stepStore s op).fetch_count = s.fetch_count ∨
      (∃ inp snap, (op = StoreOp.fetchCycle inp ∨ op = StoreOp.forceRefresh inp) ∧
        buildSnapshot inp = Except.ok snap ∧
        (stepStore s op).fetch_count = s.fetch_count + 1) := by
  cases op with
  | fetchCycle inp =>
    simp only [stepStore]
    split_ifs with hstop
    · exact Or.inl rfl
    · rcases doFetch_count s inp with h | ⟨snap, hok, h⟩
      · exact Or.inl h
      · exact Or.inr ⟨inp, snap, Or.inl rfl, hok, h⟩
  | readData => exact Or.inl rfl
  | readStatus => exact Or.inl rfl
  | setInterval n => exact Or.inl rfl
  | forceRefresh inp =>
    simp only [stepStore, force_refresh]
    split_ifs with hf
    · exact Or.inl rfl
    · rcases doFetch_count s inp with h | ⟨snap, hok, h⟩
      · exact Or.inl h
      · exact Or.inr ⟨inp, snap, Or.inr rfl, hok, h⟩
  | stop => exact Or.inl rfl

lemma stepStore_count_mono (s : StoreState) (op : StoreOp) :
    s.fetch_count ≤ (stepStore s op).fetch_count := by
  rcases stepStore_count s op with h | ⟨_, _, _, _, h⟩ <;> omega

lemma runStore_count_mono (s : StoreState) (ops : List StoreOp) :
    s.fetch_count ≤ (runStore s ops).fetch_count := by
  induction ops generalizing s with
  | nil => exact le_refl _
  | cons op ops ih =>
    exact le_trans (stepStore_count_mono s op) (ih (stepStore s op))

/-- The reachability invariant behind claim C5: the cached snapshot is
absent exactly when no fetch cycle has succeeded yet (the successful
cycles are exactly what `fetch_count` counts). -/
def DataCountInv (s : StoreState) : Prop := s.data = none ↔ s.fetch_count = 0

lemma doFetch_inv {s : StoreState} (inp : CycleInput) (h : DataCountInv s) :
    DataCountInv (doFetch s inp) := by
  rcases hb : buildSnapshot inp with e | snap
  · rw [doFetch_error hb]
    exact h
  · rw [doFetch_ok hb]
    unfold DataCountInv
    constructor
    · intro hc; cases hc
    · intro hc; cases hc

lemma stepStore_inv {s : StoreState} (op : StoreOp) (h : DataCountInv s) :
    DataCountInv (stepStore s op) := by
  cases op with
  | fetchCycle inp =>
    simp only [stepStore]
    split_ifs with hstop
    · exact h
    · exact doFetch_inv inp h
  | readData => exact h
  | readStatus => exact h
  | setInterval n => exact h
  | forceRefresh inp =>
    simp only [stepStore, force_refresh]
    split_ifs with hf
    · exact h
    · exact doFetch_inv inp h
  | stop => exact h

lemma runStore_inv {s : StoreState} (ops : List StoreOp) (h : DataCountInv s) :
    DataCountInv (runStore s ops) := by
  induction ops generalizing s with
  | nil => exact h
  | cons op ops ih => exact ih (stepStore_inv op h)

lemma reachable_inv {s : StoreState} (h : ReachableStore s) : DataCountInv s := by
  obtain ⟨interval, inp0, ops, rfl⟩ := h
  refine runStore_inv ops (doFetch_inv inp0 ?_)
  exact ⟨fun _ => rfl, fun _ => rfl⟩



/-! ## Claim theorems -/

/-- C2: if any producer pipeline inside a fetch cycle raises an exception,
the cycle does not propagate it: the previously published snapshot,
`last_refresh`, `next_refresh` and `fetch_count` are left unchanged (no
partial snapshot is published), `last_error` is set to the message of the
error, and `is_fetching` is reset to false. -/
theorem claim2_failed_cycle_preserves_state (s : StoreState) (inp : CycleInput)
    (h : (∃ e, inp.social = Except.error e) ∨ (∃ e, inp.disaster = Except.error e) ∨
         (∃ e, inp.infra = Except.error e)) :
    ∃ e, cycleError inp = some e ∧
      doFetch s inp = { s with last_error := some e, is_fetching := false } ∧
      (doFetch s inp).data = s.data ∧
      (doFetch s inp).last_refresh = s.last_refresh ∧
      (doFetch s inp).next_refresh = s.next_refresh ∧
      (doFetch s inp).fetch_count = s.fetch_count := by
  obtain ⟨e, he⟩ := cycleError_isSome_of_producer_error h
  have hb := buildSnapshot_error_of_cycleError he
  have hd := doFetch_error (s := s) hb
  exact ⟨e, he, hd, by rw [hd], by rw [hd], by rw [hd], by rw [hd]⟩

/-- Witness for C2 at a concrete failing cycle input. -/
theorem claim2_witness :
    doFetch (initState 300) sampleErrInput =
      { (initState 300) with last_error := some "network down", is_fetching := false } := by
  obtain ⟨e, he, hd, -, -, -, -⟩ :=
    claim2_failed_cycle_preserves_state (initState 300) sampleErrInput
      (Or.inl ⟨"network down", rfl⟩)
  have h2 : some "network down" = some e := he
  rw [← Option.some.inj h2] at hd
  exact hd

/-- C3 counterexample: when only the infrastructure producer raises, the
cycle publishes nothing at all — starting from a store with no snapshot,
the cached data is still `none` after the cycle, so no snapshot
"containing valid social and disaster data" is published. -/
theorem claim3_counterexample :
    (∃ a, sampleFailInput.social = Except.ok a) ∧
    (∃ d, sampleFailInput.disaster = Except.ok d) ∧
    (∃ e, sampleFailInput.infra = Except.error e) ∧
    ¬ (∀ (s : StoreState) (inp : CycleInput),
        (∃ a, inp.social = Except.ok a) → (∃ d, inp.disaster = Except.ok d) →
        (∃ e, inp.infra = Except.error e) →
        ∃ snap, (doFetch s inp).data = some snap) := by
  refine ⟨⟨_, rfl⟩, ⟨_, rfl⟩, ⟨_, rfl⟩, ?_⟩
  intro h
  obtain ⟨snap, hsnap⟩ := h (initState 300) sampleFailInput ⟨_, rfl⟩ ⟨_, rfl⟩ ⟨_, rfl⟩
  have hnone : (doFetch (initState 300) sampleFailInput).data = none := rfl
  rw [hnone] at hsnap
  cases hsnap

/-- C3 (amended): if the infrastructure producer raises while the social
and disaster producers succeed, the cycle publishes no snapshot at all —
the previous snapshot and all refresh metadata are retained unchanged —
and `last_error` is set to the infrastructure error message. -/
theorem claim3_amended_infra_failure_publishes_nothing (s : StoreState)
    (inp : CycleInput) (e : String)
    (hs : ∃ a, inp.social = Except.ok a) (hd : ∃ d, inp.disaster = Except.ok d)
    (hi : inp.infra = Except.error e) :
    doFetch s inp = { s with last_error := some e, is_fetching := false } ∧
    (doFetch s inp).data = s.data ∧
    (doFetch s inp).fetch_count = s.fetch_count ∧
    (doFetch s inp).last_error = some e := by
  obtain ⟨a, ha⟩ := hs
  obtain ⟨d, hdd⟩ := hd
  have hce : cycleError inp = some e := by
    unfold cycleError
    rw [ha, hdd, hi]
  have hb := buildSnapshot_error_of_cycleError hce
  have hdf := doFetch_error (s := s) hb
  exact ⟨hdf, by rw [hdf], by rw [hdf], by rw [hdf]⟩

/-- Witness for the amended C3 at a concrete input. -/
theorem claim3_witness :
    doFetch (initState 300) sampleFailInput =
      { (initState 300) with last_error := some "probe failure", is_fetching := false } :=
  (claim3_amended_infra_failure_publishes_nothing (initState 300) sampleFailInput
    "probe failure" ⟨_, rfl⟩ ⟨_, rfl⟩ rfl).1

/-- C4: a successful fetch cycle publishes atomically — in one step the
snapshot becomes the fully built seven-field result, `last_refresh`
becomes the completion time, `next_refresh` becomes
`last_refresh + refresh_interval`, `fetch_count` goes up by exactly one,
and `last_error` is cleared; `fetch_count` is non-decreasing over the
lifetime, and no interaction other than a successful fetch changes it. -/
theorem claim4_successful_fetch_publishes_atomically :
    (∀ (s : StoreState) (inp : CycleInput) (snap : Snapshot),
        buildSnapshot inp = Except.ok snap →
        doFetch s inp =
          { s with data := some snap, last_refresh := some inp.now,
                   next_refresh := some (inp.now + s.refresh_interval),
                   fetch_count := s.fetch_count + 1, last_error := none,
                   is_fetching := false }) ∧
    (∀ (s : StoreState) (ops : List StoreOp),
        s.fetch_count ≤ (runStore s ops).fetch_count) ∧
    (∀ (s : StoreState) (op : StoreOp),
        (stepStore s op).fetch_count = s.fetch_count ∨
          ∃ inp snap, (op = StoreOp.fetchCycle inp ∨ op = StoreOp.forceRefresh inp) ∧
            buildSnapshot inp = Except.ok snap ∧
            (stepStore s op).fetch_count = s.fetch_count + 1) :=
  ⟨fun _ _ _ h => doFetch_ok h, runStore_count_mono, stepStore_count⟩

/-- Witness for C4: one successful cycle on a fresh store. -/
theorem claim4_witness :
    doFetch (initState 300) sampleOkInput =
      { (initState 300) with
        data := some sampleSnap, last_refresh := some 1000,
        next_refresh := some 1300, fetch_count := 1, last_error := none,
        is_fetching := false } ∧
    (initState 300).fetch_count ≤
      (runStore (initState 300) [StoreOp.readData]).fetch_count := by
  constructor
  · have h := claim4_successful_fetch_publishes_atomically.1 (initState 300)
      sampleOkInput sampleSnap rfl
    simpa using h
  · exact claim4_successful_fetch_publishes_atomically.2.1 (initState 300)
      [StoreOp.readData]

/-- C5: `get_data` never triggers a fetch and leaves the store unchanged;
over every reachable store state it returns `none` exactly when no fetch
cycle has yet succeeded (`fetch_count` counts exactly the successful
cycles); and after a construction whose initial synchronous fetch succeeds
it returns the built snapshot. -/
theorem claim5_read_is_pure :
    (∀ s : StoreState, get_data s = (s.data, s)) ∧
    (∀ s : StoreState, ReachableStore s →
        ((get_data s).1 = none ↔ s.fetch_count = 0)) ∧
    (∀ (interval : ℤ) (inp : CycleInput) (snap : Snapshot),
        buildSnapshot inp = Except.ok snap →
        (get_data (mkStore interval inp)).1 = some snap) := by
  refine ⟨fun s => rfl, fun s hs => reachable_inv hs, fun interval inp snap h => ?_⟩
  show (doFetch (initState interval) inp).data = some snap
  rw [doFetch_ok h]

/-- Witness for C5 on a freshly constructed store with a successful
initial fetch. -/
theorem claim5_witness :
    ((get_data (mkStore 300 sampleOkInput)).1 = none ↔
      (mkStore 300 sampleOkInput).fetch_count = 0) ∧
    (get_data (mkStore 300 sampleOkInput)).1 = some sampleSnap :=
  ⟨claim5_read_is_pure.2.1 (mkStore 300 sampleOkInput) ⟨300, sampleOkInput, [], rfl⟩,
   claim5_read_is_pure.2.2 300 sampleOkInput sampleSnap rfl⟩

/-- C6: calling `force_refresh` while a fetch is in progress starts no
second fetch and changes nothing: it returns the unchanged state together
with the no-op acknowledgment. -/
theorem claim6_force_refresh_noop_while_fetching (s : StoreState) (inp : CycleInput)
    (h : s.is_fetching = true) :
    force_refresh s inp = (s, false) := by
  simp [force_refresh, h]

/-- Witness for C6 at a concrete fetching state. -/
theorem claim6_witness :
    force_refresh { (initState 300) with is_fetching := true } sampleOkInput =
      ({ (initState 300) with is_fetching := true }, false) :=
  claim6_force_refresh_noop_while_fetching _ sampleOkInput rfl

/-- C7: `set_refresh_interval` stores `max 60 seconds`, so the interval
after the call is at least 60 and equals the argument whenever the
argument is at least 60; in particular setting 10 yields 60. -/
theorem claim7_interval_floor (s : StoreState) (seconds : ℤ) :
    (set_refresh_interval s seconds).refresh_interval = max 60 seconds ∧
    60 ≤ (set_refresh_interval s seconds).refresh_interval ∧
    (60 ≤ seconds → (set_refresh_interval s seconds).refresh_interval = seconds) ∧
    (set_refresh_interval s 10).refresh_interval = 60 :=
  ⟨rfl, le_max_left _ _, fun h => max_eq_right h, by norm_num [set_refresh_interval]⟩

/-- Witness for C7. -/
theorem claim7_witness :
    (set_refresh_interval (initState 300) 10).refresh_interval = 60 ∧
    (set_refresh_interval (initState 300) 120).refresh_interval = 120 :=
  ⟨(claim7_interval_floor (initState 300) 10).2.2.2,
   (claim7_interval_floor (initState 300) 120).2.2.1 (by norm_num)⟩


/-- C8: when a region is absent from all three producer outputs the
classifier uses the defaults social = 100, infra = 100, risk = NONE, and
classifies the region NORMAL with combined score 100. -/
theorem claim8_absent_region_defaults (data : Snapshot) (kec : String)
    (hs : data.social_scores kec = none) (hi : data.infra_scores kec = none)
    (hd : data.disaster_data.risk_map kec = none) :
    classifyRegion data kec =
      { status := "NORMAL", color := "#38ef7d", combined_score := 100,
        social_score := 100, infra_score := 100, disaster_risk := "NONE",
        disaster_causes := [] } := by
  have h100 : round1 (100 : ℚ) = 100 := by
    unfold round1 roundHalfEven
    rw [round_eq]
    norm_num
  have hterm : (if ("NONE" : String) = "HIGH" then (0 : ℚ)
      else if ("NONE" : String) = "MEDIUM" then 50 else 100) = 100 := by
    rw [if_neg (by decide), if_neg (by decide)]
  simp only [classifyRegion, hs, hi, hd, Option.getD_none, Option.isSome_none, hterm]
  norm_num [h100]

/-- Witness for C8: a region missing from every map of an empty snapshot. -/
theorem claim8_witness :
    classifyRegion sampleSnap "Liwa" =
      { status := "NORMAL", color := "#38ef7d", combined_score := 100,
        social_score := 100, infra_score := 100, disaster_risk := "NONE",
        disaster_causes := [] } :=
  claim8_absent_region_defaults sampleSnap "Liwa" rfl rfl rfl

/-- C10: every entry of the risk map built by `get_combined_disaster_risk`
has risk level LOW, MEDIUM or HIGH — never NONE — and a non-empty causes
list; consequently the risk string the classifier reads is NONE exactly
when the region is absent from the risk map, which makes the classifier
membership test equivalent to "a disaster risk is present and not NONE". -/
theorem claim10_risk_map_invariant (dist : Earthquake → String → ℚ)
    (earthquakes : List Earthquake) (warnings : List WeatherWarning)
    (data : Snapshot) (kec : String)
    (hdd : data.disaster_data = get_combined_disaster_risk dist earthquakes warnings) :
    (∀ e, data.disaster_data.risk_map kec = some e →
        (e.risk = "LOW" ∨ e.risk = "MEDIUM" ∨ e.risk = "HIGH") ∧
        e.risk ≠ "NONE" ∧ e.causes ≠ []) ∧
    ((classifyRegion data kec).disaster_risk = "NONE" ↔
      data.disaster_data.risk_map kec = none) ∧
    ((data.disaster_data.risk_map kec).isSome = true ↔
      (data.disaster_data.risk_map kec ≠ none ∧
        (classifyRegion data kec).disaster_risk ≠ "NONE")) := by
  have hmain : ∀ e, data.disaster_data.risk_map kec = some e →
      ValidRisk e.risk ∧ e.causes ≠ [] := by
    intro e he
    rw [hdd] at he
    obtain ⟨rfl, hsome⟩ := combineRisk_eq_some he
    exact ⟨combineEntry_risk_valid _ _, combineEntry_causes_ne_nil _ _ hsome⟩
  refine ⟨fun e he => ⟨(hmain e he).1, validRisk_ne_none (hmain e he).1, (hmain e he).2⟩,
    ?_, ?_⟩
  · rw [classifyRegion_disaster_risk]
    rcases hrm : data.disaster_data.risk_map kec with _ | e
    · simp
    · have hne := validRisk_ne_none (hmain e hrm).1
      simp [hne]
  · rw [classifyRegion_disaster_risk]
    rcases hrm : data.disaster_data.risk_map kec with _ | e
    · simp
    · have hne := validRisk_ne_none (hmain e hrm).1
      simp [hne]

/-- Witness for C10 on one concrete weather warning. -/
theorem claim10_witness :
    (get_combined_disaster_risk (fun _ _ => 0) [] [sampleWarning]).risk_map "Kedaton" =
      some { risk := "HIGH", causes := ["Banjir"], eq_detail := none,
             weather_detail := some { risk := "HIGH", cause := "Banjir",
                                      warning_detail := sampleWarning } } ∧
    (("HIGH" = "LOW" ∨ "HIGH" = "MEDIUM" ∨ "HIGH" = "HIGH") ∧
      "HIGH" ≠ "NONE" ∧ (["Banjir"] : List String) ≠ []) := by
  have hrm : (get_combined_disaster_risk (fun _ _ => 0) [] [sampleWarning]).risk_map
      "Kedaton" =
      some { risk := "HIGH", causes := ["Banjir"], eq_detail := none,
             weather_detail := some { risk := "HIGH", cause := "Banjir",
                                      warning_detail := sampleWarning } } := by decide
  have h := (claim10_risk_map_invariant (fun _ _ => 0) [] [sampleWarning]
      { sampleSnap with
        disaster_data := get_combined_disaster_risk (fun _ _ => 0) [] [sampleWarning] }
      "Kedaton" rfl).1 _ hrm
  exact ⟨hrm, h⟩


lemma round1_of_int_mul (q : ℚ) (n : ℤ) (h : q * 10 = n) : round1 q = n / 10 := by
  unfold round1 roundHalfEven
  rw [h]
  norm_num [round_intCast]

lemma round1_half_even (q : ℚ) (n : ℤ) (h : q * 10 = (n : ℚ) + 1/2) (he : 2 ∣ n) :
    round1 q = n / 10 := by
  unfold round1 roundHalfEven
  rw [h]
  have hhalf : ⌊(1/2 : ℚ)⌋ = 0 := by
    rw [Int.floor_eq_zero_iff]
    simp [Set.mem_Ico]
    norm_num
  have hf : ⌊(n : ℚ) + 1/2⌋ = n := by
    rw [Int.floor_int_add, hhalf]
    omega
  rw [hf]
  rw [if_pos (by ring : ((n : ℚ) + 1/2) - (n : ℚ) = 1/2)]
  rw [if_pos he]

/-- C9 counterexample: `get_infra_score` is not bounded by 100 over every
input aggregation — a `DEGRADED` region with a negative average packet
loss scores 175. -/
theorem claim9_counterexample :
    get_infra_score cexProbeAgg "Kedaton" = some 175 ∧
    ¬ (∀ (agg : MapS ProbeAgg) (kec : String) (v : ℚ),
        get_infra_score agg kec = some v → 0 ≤ v ∧ v ≤ 100) := by
  have h175 : get_infra_score cexProbeAgg "Kedaton" = some 175 := by
    simp only [get_infra_score, cexProbeAgg, mupd, memp]
    norm_num [max_def, (by decide : ("DEGRADED" : String) ≠ "DOWN")]
    rw [round1_of_int_mul 175 1750 (by norm_num)]
    norm_num
  refine ⟨h175, fun h => ?_⟩
  have hb := (h cexProbeAgg "Kedaton" 175 h175).2
  norm_num at hb

/-- C9 (amended): `get_social_score` is within [0, 100] for every input
aggregation; `get_infra_score` is within [0, 100] for every input
aggregation whose average packet loss values are nonnegative, as the
probe pipeline produces them. -/
theorem claim9_amended_scores_in_range :
    (∀ (agg : MapS SocialAgg) (kec : String) (v : ℚ),
        get_social_score agg kec = some v → 0 ≤ v ∧ v ≤ 100) ∧
    (∀ (agg : MapS ProbeAgg),
        (∀ k d, agg k = some d → 0 ≤ d.avg_packet_loss) →
        ∀ (kec : String) (v : ℚ),
          get_infra_score agg kec = some v → 0 ≤ v ∧ v ≤ 100) := by
  constructor
  · intro agg kec v h
    rcases hagg : agg kec with _ | d
    · rw [get_social_score, hagg] at h
      cases h
    · rw [get_social_score, hagg] at h
      rw [Option.map_some'] at h
      injection h with h
      subst h
      refine ⟨round1_nonneg (le_max_left 0 _), round1_le_100 ?_⟩
      have hcs : max (0 : ℚ) (100 - (d.complaint_count : ℚ) * 15) ≤ 100 := by
        apply max_le (by norm_num)
        have hc : (0 : ℚ) ≤ (d.complaint_count : ℚ) * 15 := by positivity
        linarith
      have hsp : (0 : ℚ) ≤ |d.avg_sentiment| * 30 := by positivity
      have hm0 : (0 : ℚ) ≤ (if d.max_severity = "critical" then (0.5 : ℚ)
          else if d.max_severity = "warning" then 0.75
          else if d.max_severity = "normal" then 1 else 1) := by
        split_ifs <;> norm_num
      have hm1 : (if d.max_severity = "critical" then (0.5 : ℚ)
          else if d.max_severity = "warning" then 0.75
          else if d.max_severity = "normal" then 1 else 1) ≤ 1 := by
        split_ifs <;> norm_num
      apply max_le (by norm_num)
      nlinarith [hcs, hsp, hm0, hm1]
  · intro agg hpos kec v h
    rcases hagg : agg kec with _ | d
    · rw [get_infra_score, hagg] at h
      cases h
    · rw [get_infra_score, hagg] at h
      rw [Option.map_some'] at h
      injection h with h
      subst h
      have hpl := hpos kec d hagg
      split_ifs with h1 h2 h3
      · norm_num
      · have hl0 : (0 : ℚ) ≤ max 0 (100 - d.avg_packet_loss) := le_max_left _ _
        have ht0 : (0 : ℚ) ≤ max 0 (100 - d.avg_latency / 10) := le_max_left _ _
        have hl : max (0 : ℚ) (100 - d.avg_packet_loss) ≤ 100 := by
          apply max_le (by norm_num)
          linarith
        have ht : max (0 : ℚ) (100 - d.avg_latency / 10) ≤ 100 := by
          apply max_le (by norm_num)
          linarith
        exact ⟨round1_nonneg (by linarith), round1_le_100 (by linarith)⟩
      · have hl0 : (0 : ℚ) ≤ max 0 (100 - d.avg_packet_loss) := le_max_left _ _
        have hl : max (0 : ℚ) (100 - d.avg_packet_loss) ≤ 100 := by
          apply max_le (by norm_num)
          linarith
        exact ⟨round1_nonneg (by linarith), round1_le_100 (by linarith)⟩
      · norm_num

/-- Witness for the amended C9 at concrete aggregations. -/
theorem claim9_witness :
    get_social_score sampleSocialAgg "Kedaton" = some 41.2 ∧
    (0 ≤ (41.2 : ℚ) ∧ (41.2 : ℚ) ≤ 100) ∧
    get_infra_score sampleProbeAgg "Kedaton" = some 60 ∧
    (0 ≤ (60 : ℚ) ∧ (60 : ℚ) ≤ 100) := by
  have h1 : get_social_score sampleSocialAgg "Kedaton" = some 41.2 := by
    simp only [get_social_score, sampleSocialAgg, mupd, memp]
    norm_num [max_def, abs_of_nonneg,
      (by decide : ("warning" : String) ≠ "critical"),
      (by decide : ("warning" : String) = "warning")]
    rw [round1_half_even (165/4) 412 (by norm_num) (by norm_num)]
    norm_num
  have h2 : get_infra_score sampleProbeAgg "Kedaton" = some 60 := by
    simp only [get_infra_score, sampleProbeAgg, mupd, memp]
    norm_num [max_def, (by decide : ("DEGRADED" : String) ≠ "DOWN")]
    rw [round1_of_int_mul 60 600 (by norm_num)]
    norm_num
  have hpos : ∀ k d, sampleProbeAgg k = some d → 0 ≤ d.avg_packet_loss := by
    intro k d hkd
    rcases mupd_some hkd with ⟨hk, rfl⟩ | ⟨hk, hc⟩
    · norm_num
    · exact absurd hc (by simp [memp])
  exact ⟨h1, claim9_amended_scores_in_range.1 sampleSocialAgg "Kedaton" 41.2 h1,
         h2, claim9_amended_scores_in_range.2 sampleProbeAgg hpos "Kedaton" 60 h2⟩


/-- C1: on any snapshot whose disaster risk map never carries an explicit
NONE risk (the invariant the pipeline guarantees, see C10),
`compute_kecamatan_status` gives every region of `KECAMATAN_DB` exactly
the status of the specification cascade: combined = 0.4·social +
0.4·infra + 0.2·disaster_term with disaster_term 0 for HIGH, 50 for
MEDIUM and 100 otherwise; CRITICAL when combined < 30 or (social < 40 and
(a disaster risk is present and not NONE, or infra < 50)); else WARNING
when combined < 60 or social < 60 or infra < 60; else NORMAL — rule 1
evaluated before rule 2, all comparisons strict. -/
theorem claim1_classifier_matches_spec (data : Snapshot) (kec : String)
    (hmem : kec ∈ KECAMATAN_DB)
    (hNone : ∀ k e, data.disaster_data.risk_map k = some e → e.risk ≠ "NONE") :
    (compute_kecamatan_status data).lookup kec = some (classifyRegion data kec) ∧
    (classifyRegion data kec).status =
      specStatus ((data.social_scores kec).getD 100)
        ((data.infra_scores kec).getD 100)
        ((data.disaster_data.risk_map kec).map RiskEntry.risk) ∧
    (classifyRegion data kec).combined_score =
      round1 (0.4 * ((data.social_scores kec).getD 100) +
              0.4 * ((data.infra_scores kec).getD 100) +
              0.2 * (if ((data.disaster_data.risk_map kec).map RiskEntry.risk).getD "NONE"
                        = "HIGH" then 0
                     else if ((data.disaster_data.risk_map kec).map RiskEntry.risk).getD "NONE"
                        = "MEDIUM" then 50
                     else 100)) := by
  have harith : ∀ t : ℚ, ((data.social_scores kec).getD 100) * 0.4 +
      ((data.infra_scores kec).getD 100) * 0.4 + t * 0.2 =
      0.4 * ((data.social_scores kec).getD 100) +
      0.4 * ((data.infra_scores kec).getD 100) + 0.2 * t := fun t => by ring
  refine ⟨lookup_map_fn (classifyRegion data) KECAMATAN_DB kec hmem, ?_, ?_⟩
  · rw [classifyRegion_status]
    simp only [specStatus]
    rcases hrm : data.disaster_data.risk_map kec with _ | e
    · have hterm : (if ("NONE" : String) = "HIGH" then (0 : ℚ)
          else if ("NONE" : String) = "MEDIUM" then 50 else 100) = 100 := by
        rw [if_neg (by decide), if_neg (by decide)]
      simp only [Option.map_none', Option.getD_none, Option.isSome_none,
        Bool.false_eq_true, false_or, ne_eq, eq_self_iff_true, not_true_eq_false,
        false_and, hterm]
      rw [harith]
    · have hne := hNone kec e hrm
      simp only [Option.map_some', Option.getD_some, Option.isSome_some,
        eq_self_iff_true, true_or, and_true, ne_eq, hne, not_false_eq_true,
        Option.some_ne_none, true_and, or_true, false_or]
      rw [harith]
  · rw [classifyRegion_combined_score]
    rcases hrm : data.disaster_data.risk_map kec with _ | e
    · simp only [Option.map_none', Option.getD_none]
      exact congrArg round1 (by ring)
    · simp only [Option.map_some', Option.getD_some]
      exact congrArg round1 (by ring)

/-- Witness for C1 on the empty snapshot. -/
theorem claim1_witness :
    (compute_kecamatan_status sampleSnap).lookup "Kedaton" =
      some (classifyRegion sampleSnap "Kedaton") ∧
    (classifyRegion sampleSnap "Kedaton").status = specStatus 100 100 none := by
  have h := claim1_classifier_matches_spec sampleSnap "Kedaton" (by decide)
    (fun k e he => nomatch he)
  exact ⟨h.1, h.2.1⟩


end Lampung
